import Mathlib

/-!
Verification of the CornellChecker repository (devon3000/CornellChecker).

The repository holds two near-identical Python scripts:

* `src/python_monitor_script.py` — single-page monitor (`extract_form_data`,
  `calculate_content_hash`, `compare_snapshots`, `main`);
* `src/python_monitor_script_multi.py` — multi-page monitor (its own copies of
  `extract_form_data` and `calculate_content_hash`, a different
  `compare_snapshots`, `monitor_page`, `main`).

This file shallowly embeds the extraction-and-diff engine of both scripts and
proves/refutes the claims of the specification against the embedding.

Modelling conventions:

* BeautifulSoup is an external HTML parser.  A parsed document is modelled by
  the structure `Doc`: the `form` elements in document order, the result of
  `soup.select(sel)` for each CSS selector `sel`, all text nodes in document
  order, and the `<title>` element.  The extraction functions are transcribed
  from the Python source over this interface.
* Python dictionaries are modelled as association lists with string keys in
  insertion order (CPython dicts preserve insertion order); `json.dumps` with
  `sort_keys=True` sorts the keys of every object, so key order never reaches
  the serialized form.
* `hashlib.md5(s).hexdigest()` is a fixed deterministic digest of the string
  `s`, assumed collision-free by the scripts (they use it for content
  equality).  The digest is modelled by its pre-image `s` itself: digest
  equality/inequality coincides with equality/inequality of the canonical
  serialization fed to MD5.
* CPython `set` iteration order for strings depends on the per-process hash
  salt (hash randomization), so `list(some_set)` is only determined up to a
  permutation of the set's elements.  Functions that depend on it take a
  `setList` parameter, constrained by `SetListValid` to return a permutation
  of the distinct elements.
-/

/-! ## JSON values and `json.dumps(..., sort_keys=True)` -/

/-- A JSON value of the shapes the scripts serialize: null, strings, arrays
and objects (an object is its key/value pairs in insertion order). -/
inductive Json where
  | null : Json
  | str : String → Json
  | arr : List Json → Json
  | obj : List (String × Json) → Json

/-- Lowercase hexadecimal digit, as produced by Python's json escaping. -/
def hexDigit (n : Nat) : Char :=
  if n < 10 then Char.ofNat (48 + n) else Char.ofNat (87 + n)

/-- Four lowercase hex digits, the `XXXX` of a `\uXXXX` escape. -/
def hex4 (n : Nat) : String :=
  String.mk [hexDigit (n / 4096 % 16), hexDigit (n / 256 % 16),
             hexDigit (n / 16 % 16), hexDigit (n % 16)]

/-- Escaping of one character inside a JSON string literal, following
`json.dumps` with its default `ensure_ascii=True`: the two-character escapes
for quote, backslash and common control characters, `\uXXXX` for the other
control characters and all non-ASCII characters, and surrogate pairs for
characters beyond the basic multilingual plane. -/
def escapeChar (c : Char) : String :=
  if c = Char.ofNat 34 then "\\\""
  else if c = Char.ofNat 92 then "\\\\"
  else if c = Char.ofNat 10 then "\\n"
  else if c = Char.ofNat 9 then "\\t"
  else if c = Char.ofNat 13 then "\\r"
  else if c = Char.ofNat 8 then "\\b"
  else if c = Char.ofNat 12 then "\\f"
  else if c.toNat < 32 ∨ 127 ≤ c.toNat then
    if c.toNat < 65536 then "\\u" ++ hex4 c.toNat
    else "\\u" ++ hex4 (55296 + (c.toNat - 65536) / 1024)
         ++ "\\u" ++ hex4 (56320 + (c.toNat - 65536) % 1024)
  else String.singleton c

/-- A JSON string literal: quotes around the escaped characters. -/
def quoteStr (s : String) : String :=
  "\"" ++ String.join (s.data.map escapeChar) ++ "\""

/-- Order on (key, rendered value) pairs used by `sort_keys=True`: compare the
keys. -/
def keyLE (a b : String × String) : Prop := a.1 ≤ b.1

instance : DecidableRel keyLE := fun a b => inferInstanceAs (Decidable (a.1 ≤ b.1))

instance : IsTotal (String × String) keyLE := ⟨fun a b => le_total a.1 b.1⟩

instance : IsTrans (String × String) keyLE := ⟨fun _ _ _ h h2 => le_trans h h2⟩

/-- Strict key order; antisymmetric (vacuously), used to show that a sorted
permutation of a list with distinct keys is unique. -/
def keyLT (a b : String × String) : Prop := a.1 < b.1

instance : IsAntisymm (String × String) keyLT :=
  ⟨fun _ _ h h2 => absurd (lt_trans h h2) (lt_irrefl _)⟩

/-- Sorting of an object's (key, rendered value) pairs by key, as
`sort_keys=True` does. -/
def sortPairs (l : List (String × String)) : List (String × String) :=
  l.insertionSort keyLE

mutual

/-- `json.dumps(v, sort_keys=True)`: default separators `", "` and `": "`,
object keys sorted at every level.  Each value of an object is rendered first
and the (key, rendered value) pairs are then sorted by key, which yields the
same output as sorting before rendering. -/
def dumps : Json → String
  | .null => "null"
  | .str s => quoteStr s
  | .arr xs => "[" ++ String.intercalate ", " (dumpsList xs) ++ "]"
  | .obj kvs => "\x7b" ++ String.intercalate ", "
      ((sortPairs (dumpsPairs kvs)).map
        (fun kv => quoteStr kv.1 ++ ": " ++ kv.2)) ++ "\x7d"

/-- Rendering of the elements of a JSON array, in order. -/
def dumpsList : List Json → List String
  | [] => []
  | x :: xs => dumps x :: dumpsList xs

/-- Rendering of the values of a JSON object, keeping the keys. -/
def dumpsPairs : List (String × Json) → List (String × String)
  | [] => []
  | kv :: kvs => (kv.1, dumps kv.2) :: dumpsPairs kvs

end

/-- `calculate_content_hash` from `src/python_monitor_script.py` (lines
135-142): copy the snapshot dictionary, `pop` the `timestamp` key, serialize
with `json.dumps(..., sort_keys=True)` and take the MD5 hex digest.  The
digest is modelled by the serialized string (the MD5 pre-image); see the
header comment. -/
def calculate_content_hash (data : List (String × Json)) : String :=
  dumps (.obj (data.filter (fun kv => kv.1 ≠ "timestamp")))

/-- `calculate_content_hash` from `src/python_monitor_script_multi.py` (lines
171-178), a line-for-line duplicate of the single-page script's function. -/
def calculate_content_hash_multi (data : List (String × Json)) : String :=
  dumps (.obj (data.filter (fun kv => kv.1 ≠ "timestamp")))

/-! ### Key-order invariance of the serialization -/

theorem dumpsPairs_eq_map (kvs : List (String × Json)) :
    dumpsPairs kvs = kvs.map (fun kv => (kv.1, dumps kv.2)) := by
  induction kvs with
  | nil => simp [dumpsPairs]
  | cons kv kvs ih => simp [dumpsPairs, ih]

theorem sortPairs_eq_of_perm {l1 l2 : List (String × String)}
    (hp : l1.Perm l2) (hn : (l1.map Prod.fst).Nodup) :
    sortPairs l1 = sortPairs l2 := by
  have hperm : (sortPairs l1).Perm (sortPairs l2) :=
    ((List.perm_insertionSort keyLE l1).trans hp).trans
      (List.perm_insertionSort keyLE l2).symm
  have hs1 : (sortPairs l1).Sorted keyLE := List.sorted_insertionSort keyLE l1
  have hs2 : (sortPairs l2).Sorted keyLE := List.sorted_insertionSort keyLE l2
  have hn1 : ((sortPairs l1).map Prod.fst).Nodup :=
    (((List.perm_insertionSort keyLE l1).map Prod.fst).nodup_iff).2 hn
  have hn2 : ((sortPairs l2).map Prod.fst).Nodup :=
    (((List.perm_insertionSort keyLE l2).map Prod.fst).nodup_iff).2
      ((hp.map Prod.fst).nodup_iff.1 hn)
  have hlt1 : (sortPairs l1).Sorted keyLT := by
    have hne := (List.pairwise_map.mp hn1)
    exact (hs1.and hne).imp (fun h => lt_of_le_of_ne h.1 h.2)
  have hlt2 : (sortPairs l2).Sorted keyLT := by
    have hne := (List.pairwise_map.mp hn2)
    exact (hs2.and hne).imp (fun h => lt_of_le_of_ne h.1 h.2)
  exact List.eq_of_perm_of_sorted hperm hlt1 hlt2

theorem dumps_obj_perm {kvs1 kvs2 : List (String × Json)}
    (hp : kvs1.Perm kvs2) (hn : (kvs1.map Prod.fst).Nodup) :
    dumps (.obj kvs1) = dumps (.obj kvs2) := by
  have hkeys : (dumpsPairs kvs1).map Prod.fst = kvs1.map Prod.fst := by
    rw [dumpsPairs_eq_map, List.map_map]
    rfl
  have hsorted : sortPairs (dumpsPairs kvs1) = sortPairs (dumpsPairs kvs2) := by
    apply sortPairs_eq_of_perm
    · rw [dumpsPairs_eq_map, dumpsPairs_eq_map]
      exact hp.map _
    · rw [hkeys]
      exact hn
  simp only [dumps, hsorted]

/-! ## The parsed-document interface and the structured snapshot -/

/-- A form control as BeautifulSoup exposes it: one of the child elements
`input`, `select`, `textarea`, `button` of a form.  `typeAttr`, `nameAttr`
and `valueAttr` are the `type`/`name`/`value` attributes (absent ↦ `none`),
`tagName` is the element's tag name (`inp.name` in bs4, the empty string
standing for a falsy name) and `text` is `inp.get_text(strip=True)`. -/
structure Control where
  typeAttr : Option String
  tagName : String
  nameAttr : Option String
  valueAttr : Option String
  text : String
deriving DecidableEq

/-- A `form` element: its `action`/`method` attributes and its child controls
in document order. -/
structure FormTag where
  actionAttr : Option String
  methodAttr : Option String
  controls : List Control
deriving DecidableEq

/-- An element as returned by `soup.select(selector)`: its trimmed visible
text (`get_text(strip=True)`), its `href` attribute and its multi-valued
`class` attribute. -/
structure SelElem where
  text : String
  hrefAttr : Option String
  classAttr : Option (List String)
deriving DecidableEq

/-- A text node (bs4 `NavigableString`): its content and, when attached, its
parent element's tag name and `class` attribute. -/
structure TextNode where
  content : String
  parent : Option (String × Option (List String))
deriving DecidableEq

/-- The parsed HTML document, the interface `extract_form_data` reads through
BeautifulSoup: all `form` elements in document order, the result of
`soup.select` for each CSS selector, all text nodes in document order, and
the `<title>` element (`none` when the document has no title; `some t` when
it exists, with `t` its `.string`, which bs4 reports as `None` for an
empty or multi-child title). -/
structure Doc where
  forms : List FormTag
  select : String → List SelElem
  textNodes : List TextNode
  titleTag : Option (Option String)

/-- One entry of a form's `inputs` list (the Python dict with keys
`type`, `name`, `value`, `text`). -/
structure InputData where
  type : String
  name : String
  value : String
  text : String
deriving DecidableEq

/-- One form's data (the Python dict with keys `action`, `method`,
`inputs`), stored in the snapshot under the positional key `form_<i>`. -/
structure FormData where
  action : String
  method : String
  inputs : List InputData
deriving DecidableEq

/-- One activity entry (the Python dict with keys `selector`, `text`,
`href`, `class`). -/
structure ActivityData where
  selector : String
  text : String
  href : String
  classes : List String
deriving DecidableEq

/-- One status entry (the Python dict with keys `keyword`, `text`,
`parent_tag`, `parent_class`). -/
structure StatusData where
  keyword : String
  text : String
  parent_tag : String
  parent_classes : List String
deriving DecidableEq

/-- The snapshot dictionary returned by `extract_form_data`: keys `forms`
(a dict `form_0`, `form_1`, … in document order), `activities`,
`status_elements`, `page_title` (`none` models the JSON `null` that bs4's
`.string` can produce), `timestamp`, and — only after
`python_monitor_script_multi.py` line 344 sets it — `url`. -/
structure Snapshot where
  forms : List FormData
  activities : List ActivityData
  status_elements : List StatusData
  page_title : Option String
  timestamp : String
  url : Option String
deriving DecidableEq

/-! ## `extract_form_data` (both scripts) -/

/-- The fixed, ordered selector list of both scripts (lines 73-78 and
106-111). -/
def activity_selectors : List String :=
  [".activity", ".event", ".program", ".tour",
   "[class*=\"activity\"]", "[class*=\"event\"]", "[class*=\"registration\"]",
   "button[class*=\"register\"]", "a[class*=\"register\"]",
   ".btn", "button", "a[href*=\"register\"]"]

/-- The fixed status vocabulary of both scripts (lines 93 and 126). -/
def status_keywords : List String :=
  ["available", "sold out", "full", "register", "book now", "reserve", "waitlist"]

/-- One input dict of a form:
`{'type': inp.get('type', inp.name if inp.name else 'unknown'),
'name': inp.get('name', ''), 'value': inp.get('value', ''),
'text': inp.get_text(strip=True) if inp.get_text(strip=True) else ''}`. -/
def controlToInput (c : Control) : InputData :=
  { type := c.typeAttr.getD (if c.tagName ≠ "" then c.tagName else "unknown"),
    name := c.nameAttr.getD "",
    value := c.valueAttr.getD "",
    text := if c.text ≠ "" then c.text else "" }

/-- One form's dict: `action`/`method` default to the empty string, and the
inputs are the `input`/`select`/`textarea`/`button` children in order. -/
def formToData (f : FormTag) : FormData :=
  { action := f.actionAttr.getD "",
    method := f.methodAttr.getD "",
    inputs := f.controls.map controlToInput }

/-- The per-match activity filter (lines 82-90): keep a matched element only
when its trimmed text is truthy and longer than 5 characters, recording the
selector that matched, the text, the `href` (default `''`) and the `class`
list (default `[]`). -/
def activityOf (selector : String) (e : SelElem) : Option ActivityData :=
  if e.text ≠ "" ∧ 5 < e.text.length then
    some { selector := selector, text := e.text,
           href := e.hrefAttr.getD "", classes := e.classAttr.getD [] }
  else none

/-- Python's substring test `needle in hay`. -/
def strContains (hay needle : String) : Bool := decide (needle.data <:+: hay.data)

/-- The status text-node predicate `lambda x: x and keyword.lower() in
x.lower()`. -/
def statusMatches (keyword : String) (t : TextNode) : Bool :=
  t.content ≠ "" && strContains t.content.toLower keyword.toLower

/-- One status dict (lines 99-105): skipped when the text node has no parent,
otherwise `{'keyword': keyword, 'text': elem.strip(), 'parent_tag':
elem.parent.name, 'parent_class': elem.parent.get('class', [])}`.
`str.strip()` is modelled by `String.trim`. -/
def statusOf (keyword : String) (t : TextNode) : Option StatusData :=
  match t.parent with
  | some (ptag, pcls) =>
      some { keyword := keyword, text := t.content.trim,
             parent_tag := ptag, parent_classes := pcls.getD [] }
  | none => none

/-- `extract_form_data` from `src/python_monitor_script.py` (lines 42-113):
forms with positional keys, then the activity scan (one pass per selector,
an element re-emitted once per matching selector), then the status-keyword
scan over all text nodes, the page title (`''` when the document has no
`<title>`), and the capture timestamp. -/
def extract_form_data (doc : Doc) (now : String) : Snapshot :=
  { forms := doc.forms.map formToData,
    activities := activity_selectors.flatMap
      (fun sel => (doc.select sel).filterMap (activityOf sel)),
    status_elements := status_keywords.flatMap
      (fun kw => (doc.textNodes.filter (statusMatches kw)).filterMap (statusOf kw)),
    page_title := match doc.titleTag with
      | some t => t
      | none => some "",
    timestamp := now,
    url := none }

/-- `extract_form_data` from `src/python_monitor_script_multi.py` (lines
75-146), a duplicate of the single-page script's function; its only textual
difference is `find_all(string=...)` instead of the deprecated alias
`find_all(text=...)`, which have identical behaviour in bs4. -/
def extract_form_data_multi (doc : Doc) (now : String) : Snapshot :=
  { forms := doc.forms.map formToData,
    activities := activity_selectors.flatMap
      (fun sel => (doc.select sel).filterMap (activityOf sel)),
    status_elements := status_keywords.flatMap
      (fun kw => (doc.textNodes.filter (statusMatches kw)).filterMap (statusOf kw)),
    page_title := match doc.titleTag with
      | some t => t
      | none => some "",
    timestamp := now,
    url := none }

/-! ## Serialization of a snapshot to its JSON dictionary -/

def inputJson (i : InputData) : Json :=
  .obj [("type", .str i.type), ("name", .str i.name),
        ("value", .str i.value), ("text", .str i.text)]

def formJson (f : FormData) : Json :=
  .obj [("action", .str f.action), ("method", .str f.method),
        ("inputs", .arr (f.inputs.map inputJson))]

def activityJson (a : ActivityData) : Json :=
  .obj [("selector", .str a.selector), ("text", .str a.text),
        ("href", .str a.href), ("class", .arr (a.classes.map Json.str))]

def statusJson (st : StatusData) : Json :=
  .obj [("keyword", .str st.keyword), ("text", .str st.text),
        ("parent_tag", .str st.parent_tag),
        ("parent_class", .arr (st.parent_classes.map Json.str))]

def optStrJson : Option String → Json
  | some s => .str s
  | none => .null

/-- The snapshot as the Python dict that is saved to disk and hashed: keys in
insertion order, with `url` present only when the multi-page script has set
it. -/
def snapshotFields (s : Snapshot) : List (String × Json) :=
  [("forms", .obj (s.forms.enum.map
      (fun p => ("form_" ++ toString p.1, formJson p.2)))),
   ("activities", .arr (s.activities.map activityJson)),
   ("status_elements", .arr (s.status_elements.map statusJson)),
   ("page_title", optStrJson s.page_title),
   ("timestamp", .str s.timestamp)]
  ++ (match s.url with | some u => [("url", .str u)] | none => [])

/-- The content hash of a snapshot, single-page script. -/
def contentHashOf (s : Snapshot) : String :=
  calculate_content_hash (snapshotFields s)

/-- The content hash of a snapshot, multi-page script. -/
def contentHashOfMulti (s : Snapshot) : String :=
  calculate_content_hash_multi (snapshotFields s)

/-! ## `compare_snapshots` (single-page script) -/

/-- The monitored URL of the single-page script (line 24). -/
def TARGET_URL : String :=
  "https://www.cornell.edu/visit/plan/activities/?date=6-27-2025"

/-- An admissible model of CPython's `list(s)` on a `set` of strings: because
of per-process hash randomization the iteration order is arbitrary, so any
function returning the set's distinct elements in some order is a possible
behaviour.  `f xs` enumerates the set built from the list `xs`. -/
def SetListValid (f : List String → List String) : Prop :=
  ∀ xs : List String, (f xs).Perm xs.dedup

/-- One admissible enumeration (canonical order). -/
def dedupSetList : List String → List String := fun xs => xs.dedup

/-- Another admissible enumeration (reversed canonical order). -/
def revSetList : List String → List String := fun xs => xs.dedup.reverse

theorem dedupSetList_valid : SetListValid dedupSetList := fun _ => List.Perm.refl _

theorem revSetList_valid : SetListValid revSetList := fun _ => List.reverse_perm _

/-- The set `new_activities - old_activities` of lines 267-270: the distinct
activity texts of the new snapshot that occur in no activity of the old one
(as a canonical list; its enumeration order is the `setList` parameter's
business). -/
def addedActivities (o n : Snapshot) : List String :=
  ((n.activities.map (fun a => a.text)).dedup).filter
    (fun t => ¬ t ∈ o.activities.map (fun a => a.text))

/-- The set `old_activities - new_activities` of line 271. -/
def removedActivities (o n : Snapshot) : List String :=
  ((o.activities.map (fun a => a.text)).dedup).filter
    (fun t => ¬ t ∈ n.activities.map (fun a => a.text))

/-- The set `new_status - old_status` of lines 279-282. -/
def addedStatus (o n : Snapshot) : List String :=
  ((n.status_elements.map (fun e => e.text)).dedup).filter
    (fun t => ¬ t ∈ o.status_elements.map (fun e => e.text))

/-- `compare_snapshots` from `src/python_monitor_script.py` (lines 246-286).
Returns `none` for Python's `None` (no changes), otherwise `some` of the list
of change notes.  An absent old snapshot yields `["Initial snapshot
created"]`; equal hashes yield `None`; otherwise the form-count, added and
removed activity-text and added status-text notes are collected in order, and
an empty collection falls back to the single note
`"Page content changed (details unclear)"`. -/
def compare_snapshots (setList : List String → List String)
    (old_data : Option Snapshot) (new_data : Snapshot) : Option (List String) :=
  match old_data with
  | none => some ["Initial snapshot created"]
  | some o =>
    if contentHashOf o = contentHashOf new_data then none
    else
      let formChanges : List String :=
        if o.forms.length ≠ new_data.forms.length then
          ["Number of forms changed: " ++ toString o.forms.length
            ++ " -> " ++ toString new_data.forms.length]
        else []
      let addedA := addedActivities o new_data
      let removedA := removedActivities o new_data
      let activityChanges : List String :=
        (if addedA ≠ [] then
          ["New activities: " ++ String.intercalate ", " ((setList addedA).take 3)]
         else [])
        ++ (if removedA ≠ [] then
          ["Removed activities: " ++ String.intercalate ", " ((setList removedA).take 3)]
         else [])
      let statusA := addedStatus o new_data
      let statusChanges : List String :=
        if statusA ≠ [] then
          ["Status changes: " ++ String.intercalate ", " ((setList statusA).take 2)]
        else []
      let changes := formChanges ++ activityChanges ++ statusChanges
      some (if changes ≠ [] then changes else ["Page content changed (details unclear)"])

/-! ## Event traces of the runs -/

/-- The externally visible effects of one run that the claims talk about:
writing the debug HTML, invoking `send_notification`, and saving the new
snapshot to the store. -/
inductive Event where
  | saveContent : String → Event
  | notify : String → Event
  | saveSnapshot : Snapshot → Event
deriving DecidableEq

/-- `main` from `src/python_monitor_script.py` (lines 288-324), from the
point where `fetch_page_content` has returned (`none` models a failed fetch).
`notify_ok` is the boolean the `send_notification` attempt returns; `main`
discards it, which is why it does not occur in the body.  On a failed fetch
`main` returns at line 295 with no further effect; otherwise it saves the raw
content, extracts the current snapshot, compares it with the previous one,
notifies when the note list is truthy (the message joins the first 3 notes
with `"; "`), and unconditionally saves the new snapshot. -/
def main_run (setList : List String → List String) (_notify_ok : Bool)
    (fetched : Option (String × Doc)) (now : String)
    (previous_data : Option Snapshot) : List Event :=
  match fetched with
  | none => []
  | some (html, doc) =>
    let current_data := extract_form_data doc now
    let changes := compare_snapshots setList previous_data current_data
    [Event.saveContent html]
    ++ (match changes with
        | some (c :: cs) =>
            [Event.notify ("Cornell Visit Page Changed!\n\n"
              ++ String.intercalate "; " ((c :: cs).take 3)
              ++ "\n\nCheck: " ++ TARGET_URL)]
        | _ => [])
    ++ [Event.saveSnapshot current_data]

/-! ## `compare_snapshots` and `monitor_page` (multi-page script) -/

/-- `compare_snapshots` from `src/python_monitor_script_multi.py` (lines
274-324).  It returns the changed/not-changed boolean and performs the
notification itself; the returned trace records the `send_notification`
call.  An absent old snapshot is a baseline: `False`, no notification.  On a
hash mismatch it collects whole-field inequality notes for forms, activities
and status elements; a single note containing `"details unclear"` is
suppressed; any other non-empty note list is notified.  An empty note list
(hash changed but all three fields equal) falls through to `False`. -/
def compare_snapshots_multi (old_data : Option Snapshot) (new_data : Snapshot)
    (page_name now2 : String) : Bool × List Event :=
  match old_data with
  | none => (false, [])
  | some o =>
    if contentHashOfMulti o ≠ contentHashOfMulti new_data then
      let changes : List String :=
        (if o.forms ≠ new_data.forms then
          ["Form changes detected for " ++ page_name] else [])
        ++ (if o.activities ≠ new_data.activities then
          ["Activity changes detected for " ++ page_name] else [])
        ++ (if o.status_elements ≠ new_data.status_elements then
          ["Status changes detected for " ++ page_name] else [])
      match changes with
      | [] => (false, [])
      | c :: rest =>
        if rest.isEmpty && strContains c "details unclear" then (false, [])
        else
          (true,
           [Event.notify (String.mk
              [Char.ofNat 240, Char.ofNat 376, Char.ofNat 353, Char.ofNat 168]
              ++ " PAGE CHANGE ALERT for " ++ page_name ++ "!\n\n"
              ++ String.intercalate "\n" (c :: rest)
              ++ "\n\nURL: " ++ (match new_data.url with | some u => u | none => "N/A")
              ++ "\nTime: " ++ now2)])
    else (false, [])

/-- `monitor_page` from `src/python_monitor_script_multi.py` (lines 326-360),
from the point where `fetch_page_content(url)` has returned.  A failed fetch
returns `False` with no further effect; otherwise the raw content is saved,
the snapshot is extracted and the page URL added to it (line 344), the
comparison runs (notifying inside), and the new snapshot is saved
unconditionally.  `notify_ok` is the unused outcome of the notification
attempt (`send_notification` in this script returns `None` and the caller
ignores it). -/
def monitor_page_run (_notify_ok : Bool) (fetched : Option (String × Doc))
    (now now2 page_name url : String)
    (previous_data : Option Snapshot) : Bool × List Event :=
  match fetched with
  | none => (false, [])
  | some (html, doc) =>
    let current0 := extract_form_data_multi doc now
    let current_data := { current0 with url := some url }
    let res := compare_snapshots_multi previous_data current_data page_name now2
    (true, [Event.saveContent html] ++ res.2 ++ [Event.saveSnapshot current_data])

/-- A configured page (name + URL pair) of the multi-page script. -/
structure PageConfig where
  name : String
  url : String

/-- The page loop of `main` in `src/python_monitor_script_multi.py` (lines
383-389): each configured page is processed inside `try/except`, so a page
whose processing raises (modelled by `runPage` returning `Except.error`)
only loses its own effects; the loop keeps the success count and the
accumulated trace.  `runPage` abstracts `monitor_page` together with
whatever exception its I/O may raise. -/
def multi_main_run (pages : List PageConfig)
    (runPage : PageConfig → Except String (Bool × List Event)) : Nat × List Event :=
  pages.foldl (fun acc p =>
    match runPage p with
    | .ok r => ((if r.1 then acc.1 + 1 else acc.1), acc.2 ++ r.2)
    | .error _ => (acc.1, acc.2)) (0, [])

/-! ## Shared helper lemmas and sample inputs -/

theorem hash_ignores_timestamp (s : Snapshot) (t1 t2 : String) :
    contentHashOf { s with timestamp := t1 }
      = contentHashOf { s with timestamp := t2 } := by
  cases hu : s.url <;>
    simp [contentHashOf, calculate_content_hash, snapshotFields, hu]

/-- A document with no forms, no selector matches, no text nodes and a title
element whose string is `title`. -/
def emptyDoc (title : String) : Doc :=
  { forms := [], select := fun _ => [], textNodes := [],
    titleTag := some (some title) }

/-- The snapshot extracted from `emptyDoc title` at time `ts` (also the shape
of such a snapshot as loaded back from the store). -/
def snapTitle (title ts : String) : Snapshot :=
  { forms := [], activities := [], status_elements := [],
    page_title := some title, timestamp := ts, url := none }

theorem extract_emptyDoc (title ts : String) :
    extract_form_data (emptyDoc title) ts = snapTitle title ts := by
  simp [extract_form_data, emptyDoc, snapTitle, activity_selectors, status_keywords]

theorem hash_snapTitle_ne :
    contentHashOf (snapTitle "Title B" "t0") ≠ contentHashOf (snapTitle "Title A" "t1") := by
  simp [contentHashOf, calculate_content_hash, snapshotFields, snapTitle, optStrJson,
    dumps, dumpsList, dumpsPairs, sortPairs, List.insertionSort, List.orderedInsert,
    keyLE, quoteStr, escapeChar, String.intercalate]
  decide

/-! ## Claim C1 -/

/-- Claim C1, counterexample.  The claim states that with an absent previous
snapshot the diff is a baseline and `send_notification` is never invoked in
that run.  In `src/python_monitor_script.py` this is false: with no previous
snapshot, `compare_snapshots` returns the truthy list `["Initial snapshot
created"]` (line 249) and `main` therefore calls `send_notification`
(lines 310-318).  Concretely, the run on an empty page with no prior
snapshot emits a notification. -/
theorem C1_counterexample :
    Event.notify ("Cornell Visit Page Changed!\n\nInitial snapshot created\n\nCheck: "
        ++ TARGET_URL)
      ∈ main_run dedupSetList true (some ("", emptyDoc "T")) "t" none := by
  simp [main_run, compare_snapshots, String.intercalate, String.intercalate.go]

/-- Claim C1, amended.  When the previous snapshot is absent: the multi-page
script's `compare_snapshots` reports no change and sends no notification
(its `monitor_page` run contains no notify event), establishing the baseline;
the single-page script's `compare_snapshots` instead returns the note list
`["Initial snapshot created"]` and its `main` does invoke
`send_notification` with that note. -/
theorem C1_amended :
    (∀ (n : Snapshot) (pn t : String),
        compare_snapshots_multi none n pn t = (false, []))
    ∧ (∀ (nk : Bool) (html : String) (doc : Doc) (now now2 pn url : String) (m : String),
        Event.notify m ∉ (monitor_page_run nk (some (html, doc)) now now2 pn url none).2)
    ∧ (∀ (setList : List String → List String) (n : Snapshot),
        compare_snapshots setList none n = some ["Initial snapshot created"])
    ∧ (∀ (setList : List String → List String) (nk : Bool) (html : String)
          (doc : Doc) (now : String),
        Event.notify ("Cornell Visit Page Changed!\n\nInitial snapshot created\n\nCheck: "
            ++ TARGET_URL)
          ∈ main_run setList nk (some (html, doc)) now none) := by
  refine ⟨fun n pn t => rfl, ?_, fun setList n => rfl, ?_⟩
  · intro nk html doc now now2 pn url m
    simp [monitor_page_run, compare_snapshots_multi]
  · intro setList nk html doc now
    simp [main_run, compare_snapshots, String.intercalate, String.intercalate.go]

/-! ## Claim C2 -/

/-- Claim C2, evaluated at the failing input.  The claim (and the spec's
policy) says a change-note list that is exactly the single fallback note
`"Page content changed (details unclear)"` is Minor and is not notified.
The single-page script violates this: with a previous and a current snapshot
that differ only in `page_title` (so the hashes differ but no structured
comparison produces a note), `compare_snapshots` returns exactly the
fallback note, and `main` — which notifies on any truthy note list —
invokes `send_notification` with it.  (The multi-page script contains the
suppression branch, lines 310-315, but its own note strings never contain
`"details unclear"`, so the intent documented there is dead code.) -/
theorem C2_code_bug_eval :
    compare_snapshots dedupSetList (some (snapTitle "Title B" "t0"))
        (snapTitle "Title A" "t1")
      = some ["Page content changed (details unclear)"]
    ∧ Event.notify
        ("Cornell Visit Page Changed!\n\nPage content changed (details unclear)\n\nCheck: "
          ++ TARGET_URL)
      ∈ main_run dedupSetList true (some ("", emptyDoc "Title A")) "t1"
          (some (snapTitle "Title B" "t0")) := by
  have hne := hash_snapTitle_ne
  have hcmp : compare_snapshots dedupSetList (some (snapTitle "Title B" "t0"))
      (snapTitle "Title A" "t1")
      = some ["Page content changed (details unclear)"] := by
    rw [compare_snapshots, if_neg hne]
    simp [addedActivities, removedActivities, addedStatus, snapTitle]
  refine ⟨hcmp, ?_⟩
  rw [main_run, extract_emptyDoc, hcmp]
  simp [String.intercalate, String.intercalate.go]

/-! ## Claim C3 -/

/-- Claim C3, counterexample.  The claim states the hash is computed with
both `captured_at` and `source_url` excluded.  `calculate_content_hash` only
pops the `timestamp` key (line 139); the `url` field that `monitor_page`
sets (multi-page script, line 344) stays in the hashed serialization, so two
snapshots that differ only in `url` get different digests. -/
theorem C3_counterexample :
    calculate_content_hash (snapshotFields { snapTitle "T" "t" with url := some "u1" })
      ≠ calculate_content_hash (snapshotFields { snapTitle "T" "t" with url := some "u2" }) := by
  simp [calculate_content_hash, snapshotFields, snapTitle, optStrJson,
    dumps, dumpsList, dumpsPairs, sortPairs, List.insertionSort, List.orderedInsert,
    keyLE, quoteStr, escapeChar, String.intercalate]
  decide

/-- Claim C3, amended.  `calculate_content_hash` is computed over a canonical
serialization with the `captured_at` timestamp excluded and with stable key
ordering (a permutation of the dictionary's entries, its keys being distinct,
never affects the digest); the `source_url` field set by the caller is NOT
excluded and does affect the digest. -/
theorem C3_amended :
    (∀ (s : Snapshot) (t1 t2 : String),
        contentHashOf { s with timestamp := t1 }
          = contentHashOf { s with timestamp := t2 })
    ∧ ∀ (data1 data2 : List (String × Json)), data1.Perm data2 →
        (data1.map Prod.fst).Nodup →
        calculate_content_hash data1 = calculate_content_hash data2 := by
  refine ⟨hash_ignores_timestamp, ?_⟩
  intro d1 d2 hp hn
  unfold calculate_content_hash
  apply dumps_obj_perm (hp.filter _)
  exact ((List.filter_sublist d1).map Prod.fst).nodup hn

/-- Claim C3, witness for the amended claim: reordering the two keys of a
concrete dictionary leaves the hash unchanged. -/
theorem C3_amended_witness :
    calculate_content_hash [("b", Json.null), ("a", Json.null)]
      = calculate_content_hash [("a", Json.null), ("b", Json.null)] :=
  C3_amended.2 _ _ (List.Perm.swap _ _ _) (by decide)

/-! ## Claim C4 -/

/-- An activity entry as extracted for an element matched by `.btn` with
trimmed text `t`, no `href` and no classes. -/
def actElem (t : String) : ActivityData :=
  { selector := ".btn", text := t, href := "", classes := [] }

/-- A snapshot whose activity texts are `texts` and whose other content is
fixed. -/
def snapActs (ts : String) (texts : List String) : Snapshot :=
  { forms := [], activities := texts.map actElem, status_elements := [],
    page_title := some "T", timestamp := ts, url := none }

theorem hash_snapActs_ne :
    contentHashOf (snapActs "t0" [])
      ≠ contentHashOf (snapActs "t1" ["Alpha One", "Beta Two"]) := by
  simp [contentHashOf, calculate_content_hash, snapshotFields, snapActs, actElem,
    activityJson, optStrJson,
    dumps, dumpsList, dumpsPairs, sortPairs, List.insertionSort, List.orderedInsert,
    keyLE, quoteStr, escapeChar, String.intercalate, String.intercalate.go]
  decide

/-- Claim C4, counterexample.  The claim says the "New activities" note lists
its examples in a deterministic order — the first-seen order of the new
fingerprint, not arbitrary.  The code builds the examples with
`', '.join(list(added_activities)[:3])` where `added_activities` is a CPython
`set` of strings (lines 267-274), whose iteration order depends on the
per-process hash salt.  Two admissible enumerations of the same set
difference — canonical first-seen order and its reverse — give different
notes for the same pair of fingerprints, so the note is not a function of the
fingerprints and in particular is not guaranteed to follow first-seen
order. -/
theorem C4_counterexample :
    SetListValid revSetList ∧ SetListValid dedupSetList
    ∧ compare_snapshots revSetList (some (snapActs "t0" []))
        (snapActs "t1" ["Alpha One", "Beta Two"])
      ≠ compare_snapshots dedupSetList (some (snapActs "t0" []))
        (snapActs "t1" ["Alpha One", "Beta Two"]) := by
  refine ⟨revSetList_valid, dedupSetList_valid, ?_⟩
  have hne := hash_snapActs_ne
  rw [compare_snapshots, compare_snapshots, if_neg hne, if_neg hne]
  simp [addedActivities, removedActivities, addedStatus, snapActs, actElem,
    revSetList, dedupSetList, List.dedup, List.pwFilter,
    String.intercalate, String.intercalate.go]

/-- Claim C4, amended.  For admissible set-enumeration behaviour
(`SetListValid`), when the hashes differ and the added activity-text set is
non-empty, the diff contains a "New activities" note listing at most 3
example values, each drawn from the added set, in the enumeration order of
the Python set (an arbitrary permutation, not guaranteed to be first-seen
order); symmetrically it contains a "Removed activities" note when the
removed set is non-empty. -/
theorem C4_amended (setList : List String → List String)
    (hv : SetListValid setList) (o n : Snapshot)
    (hh : contentHashOf o ≠ contentHashOf n)
    (hadd : addedActivities o n ≠ []) :
    ∃ cs, compare_snapshots setList (some o) n = some cs
      ∧ ("New activities: "
          ++ String.intercalate ", " ((setList (addedActivities o n)).take 3)) ∈ cs
      ∧ ((setList (addedActivities o n)).take 3).length ≤ 3
      ∧ (∀ x ∈ (setList (addedActivities o n)).take 3, x ∈ addedActivities o n)
      ∧ (removedActivities o n ≠ [] →
          ("Removed activities: "
            ++ String.intercalate ", " ((setList (removedActivities o n)).take 3)) ∈ cs) := by
  rw [compare_snapshots, if_neg hh]
  refine ⟨_, rfl, ?_, ?_, ?_, ?_⟩
  · have hmem : ("New activities: "
        ++ String.intercalate ", " ((setList (addedActivities o n)).take 3))
        ∈ (if o.forms.length ≠ n.forms.length then
            ["Number of forms changed: " ++ toString o.forms.length
              ++ " -> " ++ toString n.forms.length] else [])
          ++ ((if addedActivities o n ≠ [] then
            ["New activities: "
              ++ String.intercalate ", " ((setList (addedActivities o n)).take 3)] else [])
          ++ (if removedActivities o n ≠ [] then
            ["Removed activities: "
              ++ String.intercalate ", " ((setList (removedActivities o n)).take 3)] else []))
          ++ (if addedStatus o n ≠ [] then
            ["Status changes: "
              ++ String.intercalate ", " ((setList (addedStatus o n)).take 2)] else []) := by
      simp [hadd]
    rw [if_pos]
    · exact hmem
    · intro h
      rw [h] at hmem
      exact absurd hmem (List.not_mem_nil _)
  · exact List.length_take_le _ _
  · intro x hx
    have hx2 : x ∈ setList (addedActivities o n) := List.take_subset _ _ hx
    exact List.mem_dedup.mp ((hv (addedActivities o n)).mem_iff.mp hx2)
  · intro hrem
    have hmem : ("Removed activities: "
        ++ String.intercalate ", " ((setList (removedActivities o n)).take 3))
        ∈ (if o.forms.length ≠ n.forms.length then
            ["Number of forms changed: " ++ toString o.forms.length
              ++ " -> " ++ toString n.forms.length] else [])
          ++ ((if addedActivities o n ≠ [] then
            ["New activities: "
              ++ String.intercalate ", " ((setList (addedActivities o n)).take 3)] else [])
          ++ (if removedActivities o n ≠ [] then
            ["Removed activities: "
              ++ String.intercalate ", " ((setList (removedActivities o n)).take 3)] else []))
          ++ (if addedStatus o n ≠ [] then
            ["Status changes: "
              ++ String.intercalate ", " ((setList (addedStatus o n)).take 2)] else []) := by
      simp [hrem]
    rw [if_pos]
    · exact hmem
    · intro h
      rw [h] at hmem
      exact absurd hmem (List.not_mem_nil _)

/-- Claim C4, witness for the amended claim at a concrete pair of snapshots
with two added activities. -/
theorem C4_amended_witness :
    ∃ cs, compare_snapshots dedupSetList (some (snapActs "t0" []))
        (snapActs "t1" ["Alpha One", "Beta Two"]) = some cs
      ∧ ("New activities: " ++ String.intercalate ", "
          ((dedupSetList (addedActivities (snapActs "t0" [])
            (snapActs "t1" ["Alpha One", "Beta Two"]))).take 3)) ∈ cs
      ∧ ((dedupSetList (addedActivities (snapActs "t0" [])
            (snapActs "t1" ["Alpha One", "Beta Two"]))).take 3).length ≤ 3
      ∧ (∀ x ∈ (dedupSetList (addedActivities (snapActs "t0" [])
            (snapActs "t1" ["Alpha One", "Beta Two"]))).take 3,
          x ∈ addedActivities (snapActs "t0" []) (snapActs "t1" ["Alpha One", "Beta Two"]))
      ∧ (removedActivities (snapActs "t0" []) (snapActs "t1" ["Alpha One", "Beta Two"]) ≠ [] →
          ("Removed activities: " ++ String.intercalate ", "
            ((dedupSetList (removedActivities (snapActs "t0" [])
              (snapActs "t1" ["Alpha One", "Beta Two"]))).take 3)) ∈ cs) :=
  C4_amended dedupSetList dedupSetList_valid _ _ hash_snapActs_ne (by decide)

/-! ## Claim C5 -/

/-- Claim C5: when the content hashes differ but none of the structured
comparisons of `compare_snapshots` (form count, added/removed activity text
sets, added status text set) produces a note, the diff returns exactly the
single fallback note `"Page content changed (details unclear)"`
(`src/python_monitor_script.py`, lines 257-286). -/
theorem C5_fallback (setList : List String → List String) (o n : Snapshot)
    (hh : contentHashOf o ≠ contentHashOf n)
    (hf : o.forms.length = n.forms.length)
    (ha : addedActivities o n = []) (hr : removedActivities o n = [])
    (hs : addedStatus o n = []) :
    compare_snapshots setList (some o) n
      = some ["Page content changed (details unclear)"] := by
  rw [compare_snapshots, if_neg hh]
  simp [hf, ha, hr, hs]

/-- Claim C5, witness: two snapshots that differ only in the page title have
different hashes, no structured difference, and the diff is exactly the
fallback note. -/
theorem C5_fallback_witness :
    compare_snapshots revSetList (some (snapTitle "Title B" "t0"))
        (snapTitle "Title A" "t1")
      = some ["Page content changed (details unclear)"] :=
  C5_fallback revSetList _ _ hash_snapTitle_ne rfl (by decide) (by decide) (by decide)

/-! ## Claim C6 -/

/-- Claim C6: for every element matched by an activity selector rule whose
trimmed visible text has length at most 5 (including empty text), no
activity entry is produced for that match (`if text and len(text) > 5`,
line 84), and consequently every activity in an extracted fingerprint has
text longer than 5 characters. -/
theorem C6_threshold (doc : Doc) (now sel : String) (e : SelElem)
    (_hsel : sel ∈ activity_selectors) (_hm : e ∈ doc.select sel)
    (hlen : e.text.length ≤ 5) :
    activityOf sel e = none
    ∧ ∀ a ∈ (extract_form_data doc now).activities, 5 < a.text.length := by
  constructor
  · unfold activityOf
    rw [if_neg]
    intro h
    omega
  · intro a ha
    simp only [extract_form_data, List.mem_flatMap, List.mem_filterMap] at ha
    obtain ⟨s, _, e2, _, hae⟩ := ha
    unfold activityOf at hae
    split at hae
    · rename_i hcond
      cases hae
      exact hcond.2
    · exact absurd hae (by simp)

/-- Claim C6, witness: a document whose `.btn` selector matches one element
with the 3-character text "abc" yields no activity for it, and every
activity of the extracted fingerprint (there are none) has long text. -/
theorem C6_threshold_witness :
    activityOf ".btn" { text := "abc", hrefAttr := none, classAttr := none } = none
    ∧ ∀ a ∈ (extract_form_data
        { forms := [], select := fun s => if s = ".btn" then
            [{ text := "abc", hrefAttr := none, classAttr := none }] else [],
          textNodes := [], titleTag := none } "t").activities,
        5 < a.text.length :=
  C6_threshold _ "t" ".btn" _ (by decide) (by decide) (by decide)

/-! ## Claim C7 -/

/-- Claim C7: extraction is deterministic — running `extract_form_data`
twice on the same parsed document yields fingerprints equal except for the
`captured_at` timestamp, and their content hashes are equal. -/
theorem C7_determinism (doc : Doc) (t1 t2 : String) :
    extract_form_data doc t1 = { extract_form_data doc t2 with timestamp := t1 }
    ∧ contentHashOf (extract_form_data doc t1)
        = contentHashOf (extract_form_data doc t2) := by
  refine ⟨rfl, ?_⟩
  calc contentHashOf (extract_form_data doc t1)
      = contentHashOf { extract_form_data doc t2 with timestamp := t1 } := rfl
    _ = contentHashOf { extract_form_data doc t2 with timestamp := t2 } :=
        hash_ignores_timestamp _ _ _
    _ = contentHashOf (extract_form_data doc t2) := rfl

/-! ## Claim C8 -/

/-- Claim C8: whenever the fetch succeeds, the new fingerprint is saved to
the store on every branch — baseline, no-change, minor or notable — and for
every outcome of the notification attempt (the `nk` argument, which both
scripts discard).  Single-page `main` (lines 305-324) and multi-page
`monitor_page` (lines 346-360). -/
theorem C8_unconditional_save :
    (∀ (setList : List String → List String) (nk : Bool) (html : String)
        (doc : Doc) (now : String) (prev : Option Snapshot),
        Event.saveSnapshot (extract_form_data doc now)
          ∈ main_run setList nk (some (html, doc)) now prev)
    ∧ ∀ (nk : Bool) (html : String) (doc : Doc) (now now2 pn url : String)
        (prev : Option Snapshot),
        Event.saveSnapshot { extract_form_data_multi doc now with url := some url }
          ∈ (monitor_page_run nk (some (html, doc)) now now2 pn url prev).2 := by
  constructor
  · intro setList nk html doc now prev
    simp [main_run]
  · intro nk html doc now now2 pn url prev
    simp [monitor_page_run]

/-! ## Claim C9 -/

/-- Claim C9: a failed fetch makes the run skip diffing and persisting for
that page — the single-page `main` performs no effect (lines 292-295), the
multi-page `monitor_page` returns `False` with no effect — and, in the
multi-page `main` loop (lines 383-389), a page whose processing fails
(modelled by `runPage` raising, i.e. returning `Except.error`) contributes
nothing while the remaining pages are processed exactly as before. -/
theorem C9_error_handling :
    (∀ (setList : List String → List String) (nk : Bool) (now : String)
        (prev : Option Snapshot), main_run setList nk none now prev = [])
    ∧ (∀ (nk : Bool) (now now2 pn url : String) (prev : Option Snapshot),
        monitor_page_run nk none now now2 pn url prev = (false, []))
    ∧ ∀ (p : PageConfig) (rest : List PageConfig)
        (runPage : PageConfig → Except String (Bool × List Event)) (e : String),
        runPage p = .error e →
        multi_main_run (p :: rest) runPage = multi_main_run rest runPage := by
  refine ⟨fun _ _ _ _ => rfl, fun _ _ _ _ _ _ => rfl, ?_⟩
  intro p rest runPage e he
  simp [multi_main_run, he]

/-- Claim C9, witness: with two configured pages where processing of the
first raises, the run produces the same result as a run over the remaining
page alone. -/
theorem C9_error_handling_witness :
    multi_main_run [{ name := "a", url := "ua" }, { name := "b", url := "ub" }]
        (fun p => if p.name = "a" then .error "boom" else .ok (true, []))
      = multi_main_run [{ name := "b", url := "ub" }]
        (fun p => if p.name = "a" then .error "boom" else .ok (true, [])) :=
  C9_error_handling.2.2 _ _ _ "boom" rfl

/-! ## Claim C10 -/

/-- Claim C10: the duplicated extractor and hash functions of the two
scripts agree — `extract_form_data` of the multi-page script returns the
same fingerprint as the single-page script's (modulo the `captured_at`
timestamp), and the two `calculate_content_hash` functions return the same
digest for every input dictionary. -/
theorem C10_duplicates_agree :
    (∀ (doc : Doc) (t1 t2 : String),
        extract_form_data_multi doc t1
          = { extract_form_data doc t2 with timestamp := t1 })
    ∧ ∀ (data : List (String × Json)),
        calculate_content_hash_multi data = calculate_content_hash data :=
  ⟨fun _ _ _ => rfl, fun _ => rfl⟩
